import Mathlib

/-!
Verification of the border-collie auxiliary process and its shared flag store,
shallowly embedded from:
  src/backend/access/border_collie/border_collie.c
  src/backend/postmaster/border_collie_process.c
  src/include/access/border_collie.h
  src/include/postmaster/border_collie_process.h
-/

namespace BorderCollie

/-! ## Sizes (border_collie.c / border_collie_process.c)

`Flag` is `uint64_t`, so `sizeof(Flag) = 8`.  `BorderCollieShmemStruct`
holds a single `pid_t` field, 4 bytes on the reference platform.
-/

/-- Byte width of `Flag` (`typedef uint64_t Flag`). -/
def sizeofFlag : Nat := 8

/-- Byte width of `BorderCollieShmemStruct` (one `pid_t` field). -/
def sizeofBorderCollieShmemStruct : Nat := 4

/-- Model of `add_size`: checked addition of two `Size` values.  The C
function `ereport`s on `SIZE_MAX` overflow; with `NBorderCollieFlags` an
`int` (so below `2^31`), `N * 8 + 4 < 2^35` and the check can never fire,
so the model is plain addition on `Nat`. -/
def add_size (a b : Nat) : Nat := a + b

/-- Model of `BorderCollieFlagsSize` for capacity `n` (the global
`int NBorderCollieFlags`): `size = 0; size = add_size(size, N * sizeof(Flag))`. -/
def BorderCollieFlagsSize (n : Nat) : Nat :=
  add_size 0 (n * sizeofFlag)

/-- Model of `BorderCollieShmemSize`:
`size = 0; size = add_size(size, sizeof(BorderCollieShmemStruct));
size = add_size(size, BorderCollieFlagsSize())`. -/
def BorderCollieShmemSize (n : Nat) : Nat :=
  add_size (add_size 0 sizeofBorderCollieShmemStruct) (BorderCollieFlagsSize n)

/-! ## Flag store initialization (border_collie.c)

Shared memory for the flag array is modelled at slot granularity: a region
is a `List Nat` of flag values (one entry per `Flag` slot).  The engine-wide
state for the named region "Border Collie Flags" is `Option (List Nat)`:
`none` before any process has created it, `some a` once it exists with
contents `a`.
-/

/-- Model of `ShmemInitStruct(name, size, &found)` for a region of flag
slots: if the named region already exists, return it with `found = true`;
otherwise allocate a fresh region (contents unspecified, here the junk
parameter `fresh`) and return it with `found = false`. -/
def ShmemInitStruct (st : Option (List Nat)) (fresh : List Nat) :
    List Nat × Bool :=
  match st with
  | some a => (a, true)
  | none => (fresh, false)

/-- Model of `MemSet(region, 0, size)` over a whole region: every slot of
the region becomes zero. -/
def MemSetZeroRegion (region : List Nat) : List Nat :=
  region.map (fun _ => 0)

/-- Model of `BorderCollieFlagsInit`: look up or create the "Border Collie
Flags" region; on `!found` (first time through) `MemSet` the whole region
to zero, otherwise attach without touching the contents.  Returns the
region contents after the call (which become the new shared state). -/
def BorderCollieFlagsInit (fresh : List Nat) (st : Option (List Nat)) :
    List Nat :=
  let r := ShmemInitStruct st fresh
  if r.2 then r.1 else MemSetZeroRegion r.1

/-! ## Registration record bootstrap (border_collie_process.c)

`BorderCollieShmemInit` allocates the named region "Border Collie Data"
with `ShmemInitStruct(..., sizeof(BorderCollieShmemStruct), &found)` and,
when `!found`, runs `MemSet(BorderCollieShmem, 0, size)` where
`size = BorderCollieShmemSize()`.  The zero fill is modelled at byte
granularity over the surrounding shared-memory arena: `mem` is the arena's
bytes, `off` the offset at which the "Border Collie Data" region was
placed, and the `MemSet` zeroes `BorderCollieShmemSize n` bytes starting
at `off`. -/

/-- Model of `MemSet(mem + off, 0, len)` on an arena of bytes. -/
def memSetZeroBytes (mem : List Nat) (off len : Nat) : List Nat :=
  mem.enum.map (fun p => if off ≤ p.1 ∧ p.1 < off + len then 0 else p.2)

/-- Model of the `!found` branch of `BorderCollieShmemInit`: the zero fill
`MemSet(BorderCollieShmem, 0, size)` with `size = BorderCollieShmemSize()`,
applied to the arena bytes with the record region starting at `off`. -/
def BorderCollieShmemInitZeroFill (mem : List Nat) (off n : Nat) :
    List Nat :=
  memSetZeroBytes mem off (BorderCollieShmemSize n)

/-! ## Registration record and latch advertisement -/

/-- Model of `BorderCollieShmemStruct`: holds a single field, the PID of
the border-collie process (0 if not started). -/
structure BorderCollieShmemStruct where
  border_collie_pid : Nat
  deriving Repr, DecidableEq

/-- Model of the slot `ProcGlobal->bordercollieLatch`: a pointer to a
latch, `none` until a border-collie process advertises its latch. -/
structure ProcGlobalShared where
  bordercollieLatch : Option Nat
  deriving Repr, DecidableEq

/-- The shared-memory structures touched by the border-collie process at
startup: the registration record and the `ProcGlobal` latch slot. -/
structure EngineShared where
  borderCollieShmem : BorderCollieShmemStruct
  procGlobal : ProcGlobalShared
  deriving Repr, DecidableEq

/-- Model of the assignment `BorderCollieShmem->border_collie_pid = MyProcPid`
(the first statement of `BorderCollieProcessMain`). -/
def BorderCollieStorePid (r : BorderCollieShmemStruct) (myProcPid : Nat) :
    BorderCollieShmemStruct :=
  { r with border_collie_pid := myProcPid }

/-- Model of the two shared-memory writes `BorderCollieProcessMain`
performs before entering its loop: store the PID into the registration
record, and advertise the latch pointer via
`ProcGlobal->bordercollieLatch = &MyProc->procLatch`. -/
def borderCollieStartupPublish (e : EngineShared) (myProcPid myLatch : Nat) :
    EngineShared :=
  { e with
    borderCollieShmem := BorderCollieStorePid e.borderCollieShmem myProcPid,
    procGlobal := { bordercollieLatch := some myLatch } }

/-! ## Startup sequence of BorderCollieProcessMain -/

/-- The observable actions of `BorderCollieProcessMain` before its first
loop iteration, in source order (lines 76 through 189). -/
inductive StartupAction where
  | storePidInShmem
  | installSignalHandlers
  | resetSigchld
  | unblockSigquit
  | createMemoryContext
  | switchToMemoryContext
  | setExceptionStack
  | unblockSignals
  | advertiseLatch
  | processInit
  | enterLoop
  deriving Repr, DecidableEq

/-- The startup actions of `BorderCollieProcessMain` in the order they
appear in the source. -/
def borderCollieMainStartupSequence : List StartupAction :=
  [ StartupAction.storePidInShmem,
    StartupAction.installSignalHandlers,
    StartupAction.resetSigchld,
    StartupAction.unblockSigquit,
    StartupAction.createMemoryContext,
    StartupAction.switchToMemoryContext,
    StartupAction.setExceptionStack,
    StartupAction.unblockSignals,
    StartupAction.advertiseLatch,
    StartupAction.processInit,
    StartupAction.enterLoop ]

/-! ## Controller loop state -/

/-- The interrupt flags inspected by `HandleBorderCollieProcessInterrupts`,
set asynchronously by signal handlers. -/
structure InterruptFlags where
  procSignalBarrierPending : Bool
  configReloadPending : Bool
  shutdownRequestPending : Bool
  deriving Repr, DecidableEq

/-- The state of the border-collie process visible to one loop iteration:
the pending interrupt flags, the in-memory GUC `BorderCollieDelay`, the
delay value currently in the configuration file (read by
`ProcessConfigFile`), the `uint32_t tick` counter, the latch signalled
state, and the bytes allocated in `border_collie_context`. -/
structure ControllerState where
  flags : InterruptFlags
  borderCollieDelay : Int
  configFileDelay : Int
  tick : Nat
  latchSet : Bool
  workMemBytes : Nat
  deriving Repr, DecidableEq

/-- Default of the GUC `int BorderCollieDelay = 1000` (milliseconds). -/
def BorderCollieDelayDefault : Int := 1000

/-- The externally visible actions `HandleBorderCollieProcessInterrupts`
can take, in the order its branches appear. -/
inductive InterruptAction where
  | processProcSignalBarrier
  | processConfigFile
  | procExitZero
  deriving Repr, DecidableEq

/-- Model of `HandleBorderCollieProcessInterrupts`: check
`ProcSignalBarrierPending`, then `ConfigReloadPending` (clear it and
`ProcessConfigFile(PGC_SIGHUP)`, which re-reads `BorderCollieDelay` from
the configuration file), then `ShutdownRequestPending` (`proc_exit(0)`).
Returns the actions taken in order, and `none` when `proc_exit(0)` is
reached, otherwise `some` of the updated state. -/
def HandleBorderCollieProcessInterrupts (s : ControllerState) :
    List InterruptAction × Option ControllerState :=
  let p1 :=
    if s.flags.procSignalBarrierPending then
      ([InterruptAction.processProcSignalBarrier],
       { s with flags := { s.flags with procSignalBarrierPending := false } })
    else ([], s)
  let s1 := p1.2
  let p2 :=
    if s1.flags.configReloadPending then
      ([InterruptAction.processConfigFile],
       { s1 with
         flags := { s1.flags with configReloadPending := false },
         borderCollieDelay := s1.configFileDelay })
    else ([], s1)
  let s2 := p2.2
  if s2.flags.shutdownRequestPending then
    (p1.1 ++ p2.1 ++ [InterruptAction.procExitZero], none)
  else
    (p1.1 ++ p2.1, some s2)

/-- Outcome of one iteration of the `for (;;)` loop in
`BorderCollieProcessMain`: either the process exited via `proc_exit`
(carrying the exit code and the interrupt actions taken), or the
iteration ran to its `WaitLatch` call (carrying the state after the
iteration, the interrupt actions, the tick value passed to `ereport`,
and the timeout passed to `WaitLatch`). -/
inductive IterOutcome where
  | exited (code : Nat) (drained : List InterruptAction)
  | continued (s : ControllerState) (drained : List InterruptAction)
      (tickLoggedVal : Nat) (waitTimeoutVal : Int)
  deriving Repr, DecidableEq

/-- Exit code of the iteration, if the process exited. -/
def IterOutcome.exitCode : IterOutcome → Option Nat
  | .exited c _ => some c
  | .continued _ _ _ _ => none

/-- Tick value emitted by the iteration's `ereport(LOG, ...)`, if reached. -/
def IterOutcome.tickLogged : IterOutcome → Option Nat
  | .exited _ _ => none
  | .continued _ _ t _ => some t

/-- Timeout passed to the iteration's `WaitLatch` call, if reached. -/
def IterOutcome.waitTimeout : IterOutcome → Option Int
  | .exited _ _ => none
  | .continued _ _ _ w => some w

/-- Interrupt actions taken during the iteration. -/
def IterOutcome.drained : IterOutcome → List InterruptAction
  | .exited _ a => a
  | .continued _ a _ _ => a

/-- State after the iteration, if the process did not exit. -/
def IterOutcome.nextState : IterOutcome → Option ControllerState
  | .exited _ _ => none
  | .continued s _ _ _ => some s

/-- Model of one iteration of the loop body of `BorderCollieProcessMain`:
`ResetLatch(MyLatch)`, then `HandleBorderCollieProcessInterrupts()`, then
`cur_timeout = BorderCollieDelay`, then
`ereport(LOG, errmsg("[BorderCollie] %d second", tick))`, then `++tick`
(a `uint32_t`, wrapping), then `WaitLatch(..., cur_timeout, ...)`. -/
def borderCollieLoopIteration (s0 : ControllerState) : IterOutcome :=
  let s1 := { s0 with latchSet := false }
  match HandleBorderCollieProcessInterrupts s1 with
  | (acts, none) => IterOutcome.exited 0 acts
  | (acts, some s2) =>
      let cur_timeout := s2.borderCollieDelay
      let loggedTick := s2.tick
      let s3 := { s2 with tick := (s2.tick + 1) % 2 ^ 32 }
      IterOutcome.continued s3 acts loggedTick cur_timeout

/-! ## Error recovery path (sigsetjmp block, lines 114-167) -/

/-- The operations of the error-recovery block of
`BorderCollieProcessMain`, in source order. -/
inductive RecoveryStep where
  | clearErrorContextStack
  | holdInterrupts
  | emitErrorReport
  | lwLockReleaseAll
  | conditionVariableCancelSleep
  | pgstatReportWaitEnd
  | abortBufferIo
  | unlockBuffers
  | releaseAuxProcessResources
  | atEOXactBuffers
  | atEOXactSMgr
  | atEOXactFiles
  | atEOXactHashTables
  | switchToMemoryContext
  | flushErrorState
  | memoryContextResetAndDeleteChildren
  | resumeInterrupts
  | sleepMicroseconds (usec : Nat)
  | smgrCloseAll
  deriving Repr, DecidableEq

/-- The fixed sequence of operations the sigsetjmp recovery block of
`BorderCollieProcessMain` performs, in source order (lines 117-166);
`pg_usleep(1000000L)` is the backoff sleep. -/
def borderCollieErrorRecoverySteps : List RecoveryStep :=
  [ RecoveryStep.clearErrorContextStack,
    RecoveryStep.holdInterrupts,
    RecoveryStep.emitErrorReport,
    RecoveryStep.lwLockReleaseAll,
    RecoveryStep.conditionVariableCancelSleep,
    RecoveryStep.pgstatReportWaitEnd,
    RecoveryStep.abortBufferIo,
    RecoveryStep.unlockBuffers,
    RecoveryStep.releaseAuxProcessResources,
    RecoveryStep.atEOXactBuffers,
    RecoveryStep.atEOXactSMgr,
    RecoveryStep.atEOXactFiles,
    RecoveryStep.atEOXactHashTables,
    RecoveryStep.switchToMemoryContext,
    RecoveryStep.flushErrorState,
    RecoveryStep.memoryContextResetAndDeleteChildren,
    RecoveryStep.resumeInterrupts,
    RecoveryStep.sleepMicroseconds 1000000,
    RecoveryStep.smgrCloseAll ]

/-- Model of the recovery block: it runs the fixed step sequence, whose
only state effect visible to this model is
`MemoryContextResetAndDeleteChildren(border_collie_context)`, discarding
the iteration's working memory; control then falls through to the loop. -/
def borderCollieErrorRecovery (s : ControllerState) :
    ControllerState × List RecoveryStep :=
  ({ s with workMemBytes := 0 }, borderCollieErrorRecoverySteps)

/-! ## Flag accessor macros (border_collie.h)

`SetBorderCollieFlag(id, val)` is defined as `( /* Your content... */ )`:
an empty placeholder whose expansion performs no store (and is not even a
valid C expression).  Its best-faith model is the identity on the store.
`GetBorderCollieFlag(id)` expands to `(&BorderCollieFlag[(id)])`, naming
an identifier `BorderCollieFlag` that is declared nowhere (the real array
is `BorderCollieFlags`), so it has no denotation to embed. -/

/-- Model of the macro `SetBorderCollieFlag(id, val)`: its body is an
empty placeholder comment, so expanding it changes nothing. -/
def SetBorderCollieFlag (flags : List Nat) (id val : Nat) : List Nat :=
  flags

/-! ## Sample concrete states used by witness theorems -/

/-- A controller state with a shutdown request pending. -/
def stateShutdownPending : ControllerState :=
  { flags := { procSignalBarrierPending := false,
               configReloadPending := false,
               shutdownRequestPending := true },
    borderCollieDelay := BorderCollieDelayDefault,
    configFileDelay := BorderCollieDelayDefault,
    tick := 5, latchSet := true, workMemBytes := 64 }

/-- A controller state with a configuration reload pending, the in-memory
delay stale at 1000 while the configuration file says 50. -/
def stateReloadPending : ControllerState :=
  { flags := { procSignalBarrierPending := false,
               configReloadPending := true,
               shutdownRequestPending := false },
    borderCollieDelay := 1000,
    configFileDelay := 50,
    tick := 2, latchSet := true, workMemBytes := 0 }

/-- A controller state in which an error was just raised: no shutdown
pending, some working memory allocated. -/
def stateAfterError : ControllerState :=
  { flags := { procSignalBarrierPending := false,
               configReloadPending := false,
               shutdownRequestPending := false },
    borderCollieDelay := BorderCollieDelayDefault,
    configFileDelay := BorderCollieDelayDefault,
    tick := 9, latchSet := false, workMemBytes := 4096 }

/-! ## Theorems -/

/-- C1: if a graceful-shutdown request is pending when the controller
drains interrupts at the top of a loop iteration, the iteration ends in
`proc_exit(0)`: the exit code is 0, and neither the tick/log emission nor
the `WaitLatch` call of that iteration is executed. -/
theorem shutdown_pending_exits_zero_and_suppresses_action
    (s : ControllerState) (h : s.flags.shutdownRequestPending = true) :
    (borderCollieLoopIteration s).exitCode = some 0 ∧
    (borderCollieLoopIteration s).tickLogged = none ∧
    (borderCollieLoopIteration s).waitTimeout = none := by
  obtain ⟨⟨b, c, d⟩, dl, cf, t, l, w⟩ := s
  simp only at h
  subst h
  cases b <;> cases c <;>
    simp [borderCollieLoopIteration, HandleBorderCollieProcessInterrupts,
      IterOutcome.exitCode, IterOutcome.tickLogged, IterOutcome.waitTimeout]

/-- Witness for C1 at a concrete state with shutdown pending. -/
theorem shutdown_pending_exits_zero_and_suppresses_action_witness :
    stateShutdownPending.flags.shutdownRequestPending = true ∧
    ((borderCollieLoopIteration stateShutdownPending).exitCode = some 0 ∧
     (borderCollieLoopIteration stateShutdownPending).tickLogged = none ∧
     (borderCollieLoopIteration stateShutdownPending).waitTimeout = none) :=
  ⟨by decide,
   shutdown_pending_exits_zero_and_suppresses_action stateShutdownPending
     (by decide)⟩

/-- C4: in every loop iteration the pending interrupt flags are drained in
the fixed order barrier, then configuration reload, then shutdown; each is
acted on exactly when its flag is set, and the shutdown branch leads
directly to process exit (`HandleBorderCollieProcessInterrupts` returns no
continuation state exactly when the shutdown flag was set). -/
theorem interrupts_drained_in_fixed_order (s : ControllerState) :
    (HandleBorderCollieProcessInterrupts s).1 =
      (if s.flags.procSignalBarrierPending then
        [InterruptAction.processProcSignalBarrier] else []) ++
      (if s.flags.configReloadPending then
        [InterruptAction.processConfigFile] else []) ++
      (if s.flags.shutdownRequestPending then
        [InterruptAction.procExitZero] else []) ∧
    ((HandleBorderCollieProcessInterrupts s).2 = none ↔
      s.flags.shutdownRequestPending = true) := by
  obtain ⟨⟨b, c, d⟩, dl, cf, t, l, w⟩ := s
  cases b <;> cases c <;> cases d <;>
    simp [HandleBorderCollieProcessInterrupts]

/-- C5: when a configuration-reload request is observed at the top of a
loop iteration (and no shutdown is pending), the configuration is re-read
before `cur_timeout` is computed, so the very next `WaitLatch` call uses
the newly configured delay from the configuration file, not the stale
in-memory value. -/
theorem config_reload_updates_next_wait_timeout
    (s : ControllerState) (h1 : s.flags.configReloadPending = true)
    (h2 : s.flags.shutdownRequestPending = false) :
    (borderCollieLoopIteration s).waitTimeout = some s.configFileDelay := by
  obtain ⟨⟨b, c, d⟩, dl, cf, t, l, w⟩ := s
  simp only at h1 h2
  subst h1; subst h2
  cases b <;>
    simp [borderCollieLoopIteration, HandleBorderCollieProcessInterrupts,
      IterOutcome.waitTimeout]

/-- Witness for C5: with the stale in-memory delay 1000 and the file delay
50, the next wait uses 50. -/
theorem config_reload_updates_next_wait_timeout_witness :
    stateReloadPending.flags.configReloadPending = true ∧
    stateReloadPending.flags.shutdownRequestPending = false ∧
    (borderCollieLoopIteration stateReloadPending).waitTimeout = some 50 :=
  ⟨by decide, by decide,
   config_reload_updates_next_wait_timeout stateReloadPending
     (by decide) (by decide)⟩

/-- C6: storing the controller's own PID into the registration record is
the first action of `BorderCollieProcessMain`, preceding signal-handler
installation and loop entry, and its effect is exactly to set the record's
PID field to the controller's PID. -/
theorem store_pid_precedes_signal_setup_and_loop
    (r : BorderCollieShmemStruct) (p : Nat) :
    borderCollieMainStartupSequence.head? =
      some StartupAction.storePidInShmem ∧
    borderCollieMainStartupSequence.indexOf StartupAction.storePidInShmem <
      borderCollieMainStartupSequence.indexOf
        StartupAction.installSignalHandlers ∧
    borderCollieMainStartupSequence.indexOf StartupAction.storePidInShmem <
      borderCollieMainStartupSequence.indexOf StartupAction.enterLoop ∧
    StartupAction.enterLoop ∈ borderCollieMainStartupSequence ∧
    (BorderCollieStorePid r p).border_collie_pid = p := by
  refine ⟨by decide, by decide, by decide, by decide, rfl⟩

/-- C2: a recoverable error does not terminate the process: the recovery
block runs the fixed bounded rollback sequence (a constant list, hence
independent of the configured delay), which logs the error and sleeps
exactly 1000000 microseconds (at least 1 second); the per-iteration
working memory is reset; and the resumed loop (absent a shutdown request)
does not exit and reaches the next tick log line. -/
theorem recoverable_error_recovery_resumes_loop
    (s : ControllerState) (h : s.flags.shutdownRequestPending = false) :
    (borderCollieErrorRecovery s).2 = borderCollieErrorRecoverySteps ∧
    RecoveryStep.emitErrorReport ∈ (borderCollieErrorRecovery s).2 ∧
    (∃ usec, RecoveryStep.sleepMicroseconds usec ∈
        (borderCollieErrorRecovery s).2 ∧ 1000000 ≤ usec) ∧
    (∀ usec, RecoveryStep.sleepMicroseconds usec ∈
        (borderCollieErrorRecovery s).2 → usec = 1000000) ∧
    ((borderCollieErrorRecovery s).1).workMemBytes = 0 ∧
    (borderCollieLoopIteration (borderCollieErrorRecovery s).1).exitCode =
      none ∧
    (borderCollieLoopIteration (borderCollieErrorRecovery s).1).tickLogged =
      some s.tick := by
  obtain ⟨⟨b, c, d⟩, dl, cf, t, l, w⟩ := s
  simp only at h
  subst h
  refine ⟨rfl,
    by simp [borderCollieErrorRecovery, borderCollieErrorRecoverySteps],
    ⟨1000000,
     by simp [borderCollieErrorRecovery, borderCollieErrorRecoverySteps],
     le_refl _⟩, ?_, rfl, ?_, ?_⟩
  · intro usec hu
    simp [borderCollieErrorRecovery, borderCollieErrorRecoverySteps] at hu
    exact hu
  · cases b <;> cases c <;>
      simp [borderCollieErrorRecovery, borderCollieLoopIteration,
        HandleBorderCollieProcessInterrupts, IterOutcome.exitCode]
  · cases b <;> cases c <;>
      simp [borderCollieErrorRecovery, borderCollieLoopIteration,
        HandleBorderCollieProcessInterrupts, IterOutcome.tickLogged]

/-- Witness for C2 at a concrete post-error state. -/
theorem recoverable_error_recovery_resumes_loop_witness :
    stateAfterError.flags.shutdownRequestPending = false ∧
    ((borderCollieErrorRecovery stateAfterError).2 =
        borderCollieErrorRecoverySteps ∧
     RecoveryStep.emitErrorReport ∈
        (borderCollieErrorRecovery stateAfterError).2 ∧
     (∃ usec, RecoveryStep.sleepMicroseconds usec ∈
        (borderCollieErrorRecovery stateAfterError).2 ∧ 1000000 ≤ usec) ∧
     (∀ usec, RecoveryStep.sleepMicroseconds usec ∈
        (borderCollieErrorRecovery stateAfterError).2 → usec = 1000000) ∧
     ((borderCollieErrorRecovery stateAfterError).1).workMemBytes = 0 ∧
     (borderCollieLoopIteration
        (borderCollieErrorRecovery stateAfterError).1).exitCode = none ∧
     (borderCollieLoopIteration
        (borderCollieErrorRecovery stateAfterError).1).tickLogged =
       some stateAfterError.tick) :=
  ⟨by decide,
   recoverable_error_recovery_resumes_loop stateAfterError (by decide)⟩

/-- C3: flag-store initialization is idempotent.  On the first call the
region is created and every slot is zeroed; any later call sees
`found = true` and attaches without modifying the contents; running the
initializer on the state left by a previous run returns the same
contents; a 42 written to slot 3 between two calls survives the second
call; and the zero-fill-vs-attach branch is decided solely by the found
signal of `ShmemInitStruct`. -/
theorem flags_init_idempotent
    (n : Nat) (fresh fresh2 a : List Nat) (hf : fresh.length = n) :
    BorderCollieFlagsInit fresh none = List.replicate n 0 ∧
    BorderCollieFlagsInit fresh2 (some a) = a ∧
    BorderCollieFlagsInit fresh2 (some (BorderCollieFlagsInit fresh none)) =
      BorderCollieFlagsInit fresh none ∧
    ((BorderCollieFlagsInit (List.replicate 8 5)
        (some ((BorderCollieFlagsInit (List.replicate 8 5) none).set 3 42))).get?
        3 = some 42) ∧
    (∀ st, (ShmemInitStruct st fresh).2 = false →
      BorderCollieFlagsInit fresh st =
        MemSetZeroRegion (ShmemInitStruct st fresh).1) ∧
    (∀ st, (ShmemInitStruct st fresh).2 = true →
      BorderCollieFlagsInit fresh st = (ShmemInitStruct st fresh).1) := by
  subst hf
  refine ⟨?_, rfl, rfl, by decide, ?_, ?_⟩
  · simp [BorderCollieFlagsInit, ShmemInitStruct, MemSetZeroRegion,
      List.map_const]
  · intro st hst
    simp [BorderCollieFlagsInit, hst]
  · intro st hst
    simp [BorderCollieFlagsInit, hst]

/-- Witness for C3 at a concrete capacity and junk region. -/
theorem flags_init_idempotent_witness :
    (List.replicate 4 9).length = 4 ∧
    (BorderCollieFlagsInit (List.replicate 4 9) none =
        List.replicate 4 0 ∧
     BorderCollieFlagsInit [1, 2] (some [7, 7, 7, 7]) = [7, 7, 7, 7] ∧
     BorderCollieFlagsInit [1, 2]
        (some (BorderCollieFlagsInit (List.replicate 4 9) none)) =
       BorderCollieFlagsInit (List.replicate 4 9) none ∧
     ((BorderCollieFlagsInit (List.replicate 8 5)
        (some ((BorderCollieFlagsInit (List.replicate 8 5) none).set 3 42))).get?
        3 = some 42) ∧
     (∀ st, (ShmemInitStruct st (List.replicate 4 9)).2 = false →
       BorderCollieFlagsInit (List.replicate 4 9) st =
         MemSetZeroRegion (ShmemInitStruct st (List.replicate 4 9)).1) ∧
     (∀ st, (ShmemInitStruct st (List.replicate 4 9)).2 = true →
       BorderCollieFlagsInit (List.replicate 4 9) st =
         (ShmemInitStruct st (List.replicate 4 9)).1)) :=
  ⟨by decide,
   flags_init_idempotent 4 (List.replicate 4 9) [1, 2] [7, 7, 7, 7]
     (by decide)⟩

/-- C7: for every capacity in the range of the C `int NBorderCollieFlags`,
the flag-store sizing function returns exactly `N * sizeof(Flag)` bytes,
and the total shared-memory contribution is exactly
`sizeof(BorderCollieShmemStruct) + N * sizeof(Flag)`, with no padding. -/
theorem flags_size_exact (n : Nat) (h : n < 2 ^ 31) :
    BorderCollieFlagsSize n = n * sizeofFlag ∧
    BorderCollieShmemSize n =
      sizeofBorderCollieShmemStruct + n * sizeofFlag := by
  constructor
  · simp [BorderCollieFlagsSize, add_size]
  · simp [BorderCollieShmemSize, BorderCollieFlagsSize, add_size]

/-- Witness for C7 at capacity 5: 40 bytes of flags, 44 bytes total. -/
theorem flags_size_exact_witness :
    5 < 2 ^ 31 ∧
    (BorderCollieFlagsSize 5 = 5 * sizeofFlag ∧
     BorderCollieShmemSize 5 =
       sizeofBorderCollieShmemStruct + 5 * sizeofFlag) :=
  ⟨by decide, flags_size_exact 5 (by decide)⟩

/-- C8 (code bug): the macro `SetBorderCollieFlag` is an empty placeholder,
so setting slot 3 to 42 on a zero-filled 8-slot store leaves the store
unchanged: slot 3 still reads 0, not the 42 the specified get-after-set
round trip requires. -/
theorem set_flag_placeholder_has_no_effect :
    SetBorderCollieFlag (List.replicate 8 0) 3 42 = List.replicate 8 0 ∧
    (SetBorderCollieFlag (List.replicate 8 0) 3 42).get? 3 = some 0 ∧
    some (0 : Nat) ≠ some 42 := by
  refine ⟨rfl, by decide, by decide⟩

/-- C9 counterexample: the registration record itself does not hold a
latch handle.  Two startups with the same PID but different latches leave
identical registration records while the `ProcGlobal` latch slot differs,
so the latch handle cannot be a field of the record. -/
theorem registration_record_lacks_latch_field :
    (borderCollieStartupPublish
        { borderCollieShmem := { border_collie_pid := 0 },
          procGlobal := { bordercollieLatch := none } } 7 1).borderCollieShmem =
      (borderCollieStartupPublish
        { borderCollieShmem := { border_collie_pid := 0 },
          procGlobal := { bordercollieLatch := none } } 7 2).borderCollieShmem ∧
    (borderCollieStartupPublish
        { borderCollieShmem := { border_collie_pid := 0 },
          procGlobal := { bordercollieLatch := none } } 7 1).procGlobal ≠
      (borderCollieStartupPublish
        { borderCollieShmem := { border_collie_pid := 0 },
          procGlobal := { bordercollieLatch := none } } 7 2).procGlobal := by
  refine ⟨rfl, by decide⟩

/-- C9 (amended): the registration record holds only the controller's PID
(its contents are determined by the PID field alone); the latch handle is
published separately into the `ProcGlobal->bordercollieLatch` slot during
startup, before the loop begins. -/
theorem registration_record_pid_only_latch_in_procglobal
    (e : EngineShared) (p l : Nat) :
    (borderCollieStartupPublish e p l).borderCollieShmem.border_collie_pid =
      p ∧
    (borderCollieStartupPublish e p l).procGlobal.bordercollieLatch =
      some l ∧
    (∀ a b : BorderCollieShmemStruct,
      a.border_collie_pid = b.border_collie_pid → a = b) := by
  refine ⟨rfl, rfl, ?_⟩
  intro a b hab
  cases a
  cases b
  simp only at hab
  simp [hab]

/-- Witness for the amended C9 at a concrete engine state, PID and latch. -/
theorem registration_record_pid_only_latch_in_procglobal_witness :
    (borderCollieStartupPublish
        { borderCollieShmem := { border_collie_pid := 0 },
          procGlobal := { bordercollieLatch := none } }
        7 3).borderCollieShmem.border_collie_pid = 7 ∧
    (borderCollieStartupPublish
        { borderCollieShmem := { border_collie_pid := 0 },
          procGlobal := { bordercollieLatch := none } }
        7 3).procGlobal.bordercollieLatch = some 3 ∧
    (∀ a b : BorderCollieShmemStruct,
      a.border_collie_pid = b.border_collie_pid → a = b) :=
  registration_record_pid_only_latch_in_procglobal
    { borderCollieShmem := { border_collie_pid := 0 },
      procGlobal := { bordercollieLatch := none } } 7 3

/-- C10 (code bug): on first-time creation, `BorderCollieShmemInit` zeroes
`BorderCollieShmemSize()` bytes although the region it allocated is only
`sizeof(BorderCollieShmemStruct)` bytes.  With one flag configured and the
record region at offset 0 of a 16-byte arena filled with 7s, byte 5 —
outside the 4-byte region — is zeroed by the bootstrap. -/
theorem shmem_init_zero_fill_exceeds_region :
    (BorderCollieShmemInitZeroFill (List.replicate 16 7) 0 1).get? 5 =
      some 0 ∧
    (List.replicate (16 : Nat) (7 : Nat)).get? 5 = some 7 ∧
    sizeofBorderCollieShmemStruct ≤ 5 ∧
    sizeofBorderCollieShmemStruct < BorderCollieShmemSize 1 := by
  refine ⟨by decide, by decide, by decide, by decide⟩

end BorderCollie
